import Mathlib

/-!
# Verification of the frame scheduler of `vulkan_tutorial` (src/main.cpp)

This file shallowly embeds the per-frame synchronization and swapchain
recreation logic of `HelloTriangleApplication` in `src/main.cpp`:
`drawFrame`, `recreateSwapChain`, `cleanupSwapChain`, `createSyncObjects`
and `framebufferResizeCallback`.

The external graphics device (Vulkan + GLFW) is modelled by a per-iteration
`DeviceResponse` record holding the results the device would return
(`vkAcquireNextImageKHR`, `vkQueueSubmit`, `vkQueuePresentKHR`,
`glfwGetFramebufferSize`, `checkPhysicalDeviceSwapChain`).  The CPU-visible
state of the scheduler is an `AppState`: the current frame index
(`_currentFrame`), one `Slot` per frame in flight (the fence state of
`_framesInFlightFences[i]`, plus whether GPU work submitted with that fence
is still outstanding), the `_windowResized` flag, the queue family indices,
and a swapchain generation counter.  Every Vulkan/GLFW call the scheduler
makes is additionally recorded in an event trace so that ordering claims
(wait-before-reset-before-acquire, device-idle-before-teardown, ...) can be
stated about the calls actually issued.

Blocking forever (waiting on a fence that nothing will ever signal, or
polling framebuffer sizes that stay degenerate) is modelled by `Option`:
`none` means the call never returns.  C++ `throw` is modelled by a
`Outcome.fatal` result carrying the exception message.
-/

namespace VulkanTutorial

/-- The constant `static constexpr uint32_t MAX_FRAMES_IN_FLIGHT = 2;` (src/main.cpp:2065). -/
def MAX_FRAMES_IN_FLIGHT : Nat := 2

/-- The value `UINT64_MAX`, the infinite timeout passed to `vkWaitForFences` and
`vkAcquireNextImageKHR`. -/
def UINT64_MAX : Nat := 2 ^ 64 - 1

/-- The `VkResult` values the scheduler distinguishes.  `errorOther` stands
for every result other than the three it checks for by name. -/
inductive VkResult where
  | success
  | suboptimalKHR
  | errorOutOfDateKHR
  | errorOther
deriving DecidableEq, Repr

/-- Which of the two per-slot semaphore arrays a semaphore handle comes from
(`_imageAvailableSemaphores` or `_renderFinishedSemaphores`). -/
inductive SemKind where
  | imageAvailable
  | renderFinished
deriving DecidableEq, Repr

/-- The only pipeline stage the scheduler ever names:
`VK_PIPELINE_STAGE_COLOR_ATTACHMENT_OUTPUT_BIT`. -/
inductive PipelineStage where
  | colorAttachmentOutput
deriving DecidableEq, Repr

/-- One entry of the call trace: every Vulkan/GLFW call issued by
`drawFrame`, `recreateSwapChain` and `cleanupSwapChain`.  Semaphores are
identified by (array, slot index); fences and command buffers by index. -/
inductive Event where
  | waitFence (slot : Nat) (waitAll : Bool) (timeout : Nat)
  | resetFence (slot : Nat)
  | acquireImage (slot : Nat) (timeout : Nat)
  | updateUniformBuffer (imageIndex : Nat)
  | queueSubmit (waitSems : List (SemKind × Nat)) (waitStages : List PipelineStage)
      (cmdBuf : Nat) (signalSems : List (SemKind × Nat)) (fence : Nat)
  | queuePresent (waitSems : List (SemKind × Nat)) (imageIndex : Nat)
  | beginRecreate
  | pollFramebufferSize (w h : Nat)
  | deviceWaitIdle
  | destroyDescriptorPool
  | destroyUniformBuffers
  | freeCommandBuffers
  | destroyPipeline
  | destroyPipelineLayout
  | destroyRenderPass
  | destroyFramebuffers
  | destroySwapChainImageViews
  | destroySwapchainKHR
  | createSwapChain
  | createSwapChainImageViews
  | createRenderPass
  | createGraphicsPipelineLayout
  | createGraphicsPipeline
  | createFramebuffers
  | createUniformBuffers
  | createDescriptorPool
  | createDescriptorSets
  | createCommandBuffers
deriving DecidableEq, Repr

/-- The CPU-visible state of frame slot `i`: whether
`_framesInFlightFences[i]` is signaled, and whether work submitted with it
is still executing on the GPU (the spec's `SUBMITTED` state). -/
structure Slot where
  fenceSignaled : Bool
  pending : Bool
deriving DecidableEq, Repr

/-- The scheduler state: `_currentFrame`, the per-slot fence states,
`_windowResized`, the queue family indices `_queueFamilies.graphics` /
`_queueFamilies.present`, and a counter of how many swapchain generations
have been built. -/
structure AppState where
  currentFrame : Nat
  slots : List Slot
  windowResized : Bool
  graphicsFamily : Nat
  presentFamily : Nat
  swapchainGeneration : Nat
deriving DecidableEq, Repr

/-- What the fake graphics device answers during one `drawFrame` call. -/
structure DeviceResponse where
  acquireResult : VkResult
  acquireImageIndex : Nat
  submitOk : Bool
  presentResult : VkResult
  framebufferSizes : List (Nat × Nat)
  swapchainCompatible : Bool
deriving DecidableEq, Repr

/-- Replace element `i` of a slot list by `f` of it (identity out of range). -/
def updateSlot : List Slot → Nat → (Slot → Slot) → List Slot
  | [], _, _ => []
  | x :: xs, 0, f => f x :: xs
  | x :: xs, n + 1, f => x :: updateSlot xs n f

/-- The call `vkWaitForFences(_device, 1, &_framesInFlightFences[i], VK_TRUE,
UINT64_MAX)` (src/main.cpp:1230).  With an infinite timeout it returns once
the fence is signaled: immediately if it already is, after the GPU finishes
if work armed with it is still in flight, and never (`none`) if the fence is
unsignaled and no submitted work will ever signal it. -/
def vkWaitForFences (s : AppState) (i : Nat) : Option AppState :=
  match s.slots[i]? with
  | none => none
  | some sl =>
    if sl.fenceSignaled then some s
    else if sl.pending then
      some { s with slots := updateSlot s.slots i fun _ => { fenceSignaled := true, pending := false } }
    else none

/-- The call `vkResetFences(_device, 1, &_framesInFlightFences[i])`
(src/main.cpp:1231): the fence becomes unsignaled. -/
def vkResetFences (s : AppState) (i : Nat) : AppState :=
  { s with slots := updateSlot s.slots i fun sl => { sl with fenceSignaled := false } }

/-- The effect of `vkQueueSubmit(..., _framesInFlightFences[i])` succeeding
(src/main.cpp:1276): slot `i` now has work in flight that will signal its
fence. -/
def armFence (s : AppState) (i : Nat) : AppState :=
  { s with slots := updateSlot s.slots i fun sl => { sl with pending := true } }

/-- The call `vkDeviceWaitIdle(_device)` (src/main.cpp:1347): all in-flight work
completes, signaling every armed fence. -/
def vkDeviceWaitIdle (s : AppState) : AppState :=
  { s with slots := s.slots.map fun sl =>
      if sl.pending then { fenceSignaled := true, pending := false } else sl }

/-- The `glfwGetFramebufferSize` polling loop at the top of
`recreateSwapChain` (src/main.cpp:1337-1343): poll, and while the size is
degenerate (`width == 0 || height == 0`) poll again.  The input list is the
sequence of sizes successive polls report; the result is the first
non-degenerate size together with the poll events issued, or `none` if the
list is exhausted while still degenerate (the loop would block in
`glfwWaitEvents`). -/
def getFramebufferSizeLoop : List (Nat × Nat) → Option ((Nat × Nat) × List Event)
  | [] => none
  | (w, h) :: rest =>
    if w = 0 ∨ h = 0 then
      match getFramebufferSizeLoop rest with
      | none => none
      | some (sz, evs) => some (sz, Event.pollFramebufferSize w h :: evs)
    else some ((w, h), [Event.pollFramebufferSize w h])

/-- The function `cleanupSwapChain()` (src/main.cpp:1319-1330): the teardown calls, in
source order. -/
def cleanupSwapChain : List Event :=
  [Event.destroyDescriptorPool, Event.destroyUniformBuffers,
   Event.freeCommandBuffers, Event.destroyPipeline,
   Event.destroyPipelineLayout, Event.destroyRenderPass,
   Event.destroyFramebuffers, Event.destroySwapChainImageViews,
   Event.destroySwapchainKHR]

/-- The rebuild calls at the end of `recreateSwapChain()`
(src/main.cpp:1356-1365), in source order. -/
def rebuildSwapChain : List Event :=
  [Event.createSwapChain, Event.createSwapChainImageViews,
   Event.createRenderPass, Event.createGraphicsPipelineLayout,
   Event.createGraphicsPipeline, Event.createFramebuffers,
   Event.createUniformBuffers, Event.createDescriptorPool,
   Event.createDescriptorSets, Event.createCommandBuffers]

/-- The function `recreateSwapChain()` (src/main.cpp:1332-1366): poll until the
framebuffer size is non-degenerate, wait for the device to go idle, tear
down the old swapchain and everything sized to it, check compatibility
(`throw` if not), and rebuild.  Returns `none` if the size loop never sees
a valid size; otherwise `(some msg, ...)` if it threw, `(none, ...)` on
success, with the final state and the call trace. -/
def recreateSwapChain (s : AppState) (sizes : List (Nat × Nat))
    (compatible : Bool) : Option (Option String × AppState × List Event) :=
  match getFramebufferSizeLoop sizes with
  | none => none
  | some (_, pollEvs) =>
    let s1 := vkDeviceWaitIdle s
    let evs := Event.beginRecreate :: pollEvs ++ Event.deviceWaitIdle :: cleanupSwapChain
    if compatible then
      some (none, { s1 with swapchainGeneration := s1.swapchainGeneration + 1 },
            evs ++ rebuildSwapChain)
    else
      some (some "swapchain is not compatible anymore", s1, evs)

/-- How a `drawFrame` call ended: normally, by the early `return` on the
out-of-date acquisition path, or by throwing `std::runtime_error msg`. -/
inductive Outcome where
  | ok
  | skipped
  | fatal (msg : String)
deriving DecidableEq, Repr

/-- The function `drawFrame()` (src/main.cpp:1224-1317), given the device's responses for
this iteration.  Returns `none` when the call never returns (a blocking wait
that nothing will satisfy); otherwise the outcome, the state after the call,
and the trace of device calls issued. -/
def drawFrame (s : AppState) (d : DeviceResponse) :
    Option (Outcome × AppState × List Event) :=
  match vkWaitForFences s s.currentFrame with
  | none => none
  | some s1 =>
    let s2 := vkResetFences s1 s.currentFrame
    let tr := [Event.waitFence s.currentFrame true UINT64_MAX,
               Event.resetFence s.currentFrame,
               Event.acquireImage s.currentFrame UINT64_MAX]
    if d.acquireResult = VkResult.errorOutOfDateKHR then
      match recreateSwapChain s2 d.framebufferSizes d.swapchainCompatible with
      | none => none
      | some (some msg, s3, rEvs) => some (Outcome.fatal msg, s3, tr ++ rEvs)
      | some (none, s3, rEvs) => some (Outcome.skipped, s3, tr ++ rEvs)
    else if d.acquireResult ≠ VkResult.success ∧ d.acquireResult ≠ VkResult.suboptimalKHR then
      some (Outcome.fatal "failed to acquire swap chain image", s2, tr)
    else
      let imageIndex := d.acquireImageIndex
      let tr := tr ++ [Event.updateUniformBuffer imageIndex]
      let signalSems : List (SemKind × Nat) :=
        if s.graphicsFamily ≠ s.presentFamily then
          [(SemKind.renderFinished, s.currentFrame)]
        else []
      let tr := tr ++ [Event.queueSubmit [(SemKind.imageAvailable, s.currentFrame)]
                        [PipelineStage.colorAttachmentOutput] imageIndex signalSems
                        s.currentFrame]
      if d.submitOk = false then
        some (Outcome.fatal "failed to submit draw command buffer", s2, tr)
      else
        let s3 := armFence s2 s.currentFrame
        let presentWaits : List (SemKind × Nat) :=
          if s.graphicsFamily ≠ s.presentFamily then
            [(SemKind.renderFinished, s.currentFrame)]
          else []
        let tr := tr ++ [Event.queuePresent presentWaits imageIndex]
        if d.presentResult = VkResult.errorOutOfDateKHR ∨
           d.presentResult = VkResult.suboptimalKHR ∨ s3.windowResized = true then
          let s4 := { s3 with windowResized := false }
          match recreateSwapChain s4 d.framebufferSizes d.swapchainCompatible with
          | none => none
          | some (some msg, s5, rEvs) => some (Outcome.fatal msg, s5, tr ++ rEvs)
          | some (none, s5, rEvs) =>
            some (Outcome.ok,
                  { s5 with currentFrame := (s5.currentFrame + 1) % MAX_FRAMES_IN_FLIGHT },
                  tr ++ rEvs)
        else if d.presentResult ≠ VkResult.success then
          some (Outcome.fatal "failed to present swap chain image", s3, tr)
        else
          some (Outcome.ok,
                { s3 with currentFrame := (s3.currentFrame + 1) % MAX_FRAMES_IN_FLIGHT },
                tr)

/-- The callback `framebufferResizeCallback` (src/main.cpp:65-69): sets `_windowResized`. -/
def framebufferResizeCallback (s : AppState) : AppState :=
  { s with windowResized := true }

/-- The flag `VK_FENCE_CREATE_SIGNALED_BIT` is set in the `VkFenceCreateInfo` used by
`createSyncObjects` (src/main.cpp:1180). -/
def fenceCreateSignaled : Bool := true

/-- One iteration `i` of the loop in `createSyncObjects`
(src/main.cpp:1182-1190): create two semaphores and a fence; if any creation
fails, `throw`.  `semOk`/`fenceOk` say whether the device's create calls
succeed. -/
def createSyncObjectsLoop (semOk fenceOk : Bool) : Nat → Except String (List Slot)
  | 0 => Except.ok []
  | n + 1 =>
    if semOk = false ∨ semOk = false ∨ fenceOk = false then
      Except.error "failed to create sync objects"
    else
      match createSyncObjectsLoop semOk fenceOk n with
      | Except.error msg => Except.error msg
      | Except.ok rest =>
        Except.ok ({ fenceSignaled := fenceCreateSignaled, pending := false } :: rest)

/-- The function `createSyncObjects()` (src/main.cpp:1169-1191): one image-available
semaphore, one render-finished semaphore and one fence (created signaled)
per frame in flight.  Returns the semaphore counts and the initial slots. -/
def createSyncObjects (semOk fenceOk : Bool) :
    Except String (Nat × Nat × List Slot) :=
  match createSyncObjectsLoop semOk fenceOk MAX_FRAMES_IN_FLIGHT with
  | Except.error msg => Except.error msg
  | Except.ok slots => Except.ok (MAX_FRAMES_IN_FLIGHT, MAX_FRAMES_IN_FLIGHT, slots)

/-- The application state right after `initVulkan`: `_currentFrame = 0`,
`_windowResized = false`, and the slots produced by `createSyncObjects`. -/
def mkInitialState (gfx pres : Nat) (slots : List Slot) : AppState :=
  { currentFrame := 0, slots := slots, windowResized := false,
    graphicsFamily := gfx, presentFamily := pres, swapchainGeneration := 0 }

/-- Number of frame slots currently in the spec's `SUBMITTED` state. -/
def countSubmitted (s : AppState) : Nat :=
  (s.slots.filter Slot.pending).length

def isBeginRecreate : Event → Bool
  | Event.beginRecreate => true
  | _ => false

def isSubmitEvent : Event → Bool
  | Event.queueSubmit _ _ _ _ _ => true
  | _ => false

def isPresentEvent : Event → Bool
  | Event.queuePresent _ _ => true
  | _ => false

def isPollEvent : Event → Bool
  | Event.pollFramebufferSize _ _ => true
  | _ => false

/-- How many times a trace enters `recreateSwapChain`. -/
def countRecreates (tr : List Event) : Nat :=
  (tr.filter isBeginRecreate).length

/-- The submit calls in a trace. -/
def submitEvents (tr : List Event) : List Event :=
  tr.filter isSubmitEvent

/-- The present calls in a trace. -/
def presentEvents (tr : List Event) : List Event :=
  tr.filter isPresentEvent

/-- Drive `mainLoop`'s repeated `drawFrame` calls: for each device response
in turn, record the slot index used, whether that slot still had work in
flight at the moment it was reused (after its fence wait), and the outcome. -/
def runFrames (s : AppState) : List DeviceResponse →
    Option (AppState × List (Nat × Bool × Outcome))
  | [] => some (s, [])
  | d :: ds =>
    match vkWaitForFences s s.currentFrame with
    | none => none
    | some s1 =>
      let pendAtReuse := (((s1.slots[s.currentFrame]?).map Slot.pending).getD true)
      match drawFrame s d with
      | none => none
      | some (o, s', _) =>
        match runFrames s' ds with
        | none => none
        | some (sf, recs) => some (sf, (s.currentFrame, pendAtReuse, o) :: recs)

/-! ## Helper lemmas -/

theorem updateSlot_length (l : List Slot) (i : Nat) (f : Slot → Slot) :
    (updateSlot l i f).length = l.length := by
  induction l generalizing i with
  | nil => rfl
  | cons x xs ih =>
    cases i with
    | zero => rfl
    | succ n => simp [updateSlot, ih]

theorem getElem?_updateSlot_self (l : List Slot) (i : Nat) (f : Slot → Slot)
    (sl : Slot) (h : l[i]? = some sl) : (updateSlot l i f)[i]? = some (f sl) := by
  induction l generalizing i with
  | nil => simp at h
  | cons x xs ih =>
    cases i with
    | zero => simp_all [updateSlot]
    | succ n => simp_all [updateSlot]

theorem mem_of_getElem?_slots (l : List Slot) (i : Nat) (sl : Slot)
    (h : l[i]? = some sl) : sl ∈ l := by
  induction l generalizing i with
  | nil => simp at h
  | cons x xs ih =>
    cases i with
    | zero => simp at h; simp [h]
    | succ n => simp at h; exact List.mem_cons_of_mem _ (ih n h)

/-- Characterization of a successful fence wait: `_currentFrame`,
`_windowResized`, the queue families and the slot count are unchanged, and
slot `i`'s fence is signaled when the wait returns. -/
theorem vkWaitForFences_some (s : AppState) (i : Nat) (s1 : AppState)
    (h : vkWaitForFences s i = some s1) :
    s1.currentFrame = s.currentFrame ∧ s1.windowResized = s.windowResized ∧
    s1.graphicsFamily = s.graphicsFamily ∧ s1.presentFamily = s.presentFamily ∧
    s1.slots.length = s.slots.length ∧
    ∃ sl, s1.slots[i]? = some sl ∧ sl.fenceSignaled = true := by
  unfold vkWaitForFences at h
  cases hg : s.slots[i]? with
  | none => rw [hg] at h; exact Option.noConfusion h
  | some sl =>
    rw [hg] at h
    by_cases hs : sl.fenceSignaled = true
    · simp only [hs, if_true, Option.some.injEq] at h
      subst h
      exact ⟨rfl, rfl, rfl, rfl, rfl, sl, hg, hs⟩
    · by_cases hp : sl.pending = true
      · simp [hs, hp] at h
        subst h
        exact ⟨rfl, rfl, rfl, rfl, updateSlot_length .., _,
               getElem?_updateSlot_self _ _ _ _ hg, rfl⟩
      · simp [hs, hp] at h

/-- A fence wait blocks forever when the fence is unsignaled and no
submitted work will signal it. -/
theorem vkWaitForFences_blocks (s : AppState) (i : Nat) (sl : Slot)
    (hg : s.slots[i]? = some sl) (hs : sl.fenceSignaled = false)
    (hp : sl.pending = false) : vkWaitForFences s i = none := by
  unfold vkWaitForFences
  rw [hg]
  simp [hs, hp]

/-- With the fence invariant (a signaled fence has no outstanding work),
after a successful wait the slot has no work in flight either. -/
theorem vkWaitForFences_not_pending (s : AppState) (i : Nat) (s1 : AppState)
    (WF : ∀ sl ∈ s.slots, sl.fenceSignaled = true → sl.pending = false)
    (h : vkWaitForFences s i = some s1) :
    ∃ sl, s1.slots[i]? = some sl ∧ sl.fenceSignaled = true ∧ sl.pending = false := by
  unfold vkWaitForFences at h
  cases hg : s.slots[i]? with
  | none => rw [hg] at h; exact Option.noConfusion h
  | some sl =>
    rw [hg] at h
    by_cases hs : sl.fenceSignaled = true
    · simp only [hs, if_true, Option.some.injEq] at h
      subst h
      exact ⟨sl, hg, hs, WF sl (mem_of_getElem?_slots _ _ _ hg) hs⟩
    · by_cases hp : sl.pending = true
      · simp [hs, hp] at h
        subst h
        exact ⟨_, getElem?_updateSlot_self _ _ _ _ hg, rfl, rfl⟩
      · simp [hs, hp] at h

theorem vkDeviceWaitIdle_not_pending (s : AppState) :
    ∀ sl ∈ (vkDeviceWaitIdle s).slots, sl.pending = false := by
  intro sl hsl
  simp only [vkDeviceWaitIdle, List.mem_map] at hsl
  obtain ⟨sl0, _, hmap⟩ := hsl
  by_cases hp : sl0.pending = true <;> simp [hp] at hmap <;> simp [← hmap, hp]

/-- After `vkDeviceWaitIdle` no slot is in the `SUBMITTED` state. -/
theorem countSubmitted_vkDeviceWaitIdle (s : AppState) :
    countSubmitted (vkDeviceWaitIdle s) = 0 := by
  unfold countSubmitted
  rw [List.length_eq_zero, List.filter_eq_nil_iff]
  intro sl hsl
  simp [vkDeviceWaitIdle_not_pending s sl hsl]

theorem countSubmitted_le_length (s : AppState) :
    countSubmitted s ≤ s.slots.length :=
  List.length_filter_le _ _

/-- Inversion for `recreateSwapChain`: when it returns, the framebuffer-size
loop found a non-degenerate size, the state is the device-idle state (with
the generation bumped on success), and the trace is poll events, then
`vkDeviceWaitIdle`, then the teardown, then (on success) the rebuild. -/
theorem recreateSwapChain_inv (s : AppState) (sizes : List (Nat × Nat))
    (c : Bool) (res : Option String) (s' : AppState) (evs : List Event)
    (h : recreateSwapChain s sizes c = some (res, s', evs)) :
    ∃ sz pollEvs, getFramebufferSizeLoop sizes = some (sz, pollEvs) ∧
      s'.slots = (vkDeviceWaitIdle s).slots ∧
      s'.currentFrame = s.currentFrame ∧ s'.windowResized = s.windowResized ∧
      s'.graphicsFamily = s.graphicsFamily ∧ s'.presentFamily = s.presentFamily ∧
      ((c = true ∧ res = none ∧
        evs = Event.beginRecreate :: pollEvs ++ Event.deviceWaitIdle ::
              (cleanupSwapChain ++ rebuildSwapChain)) ∨
       (c = false ∧ res = some "swapchain is not compatible anymore" ∧
        evs = Event.beginRecreate :: pollEvs ++ Event.deviceWaitIdle ::
              cleanupSwapChain)) := by
  unfold recreateSwapChain at h
  cases hl : getFramebufferSizeLoop sizes with
  | none => rw [hl] at h; exact Option.noConfusion h
  | some r =>
    obtain ⟨sz, pollEvs⟩ := r
    rw [hl] at h
    cases c with
    | true =>
      simp only [if_true, Option.some.injEq, Prod.mk.injEq] at h
      obtain ⟨hres, hs, hevs⟩ := h
      subst hs
      refine ⟨sz, pollEvs, rfl, rfl, rfl, rfl, rfl, rfl,
             Or.inl ⟨rfl, hres.symm, ?_⟩⟩
      rw [← hevs]
      simp
    | false =>
      simp only [Bool.false_eq_true, if_false, Option.some.injEq, Prod.mk.injEq] at h
      obtain ⟨hres, hs, hevs⟩ := h
      subst hs
      exact ⟨sz, pollEvs, rfl, rfl, rfl, rfl, rfl, rfl,
             Or.inr ⟨rfl, hres.symm, hevs.symm⟩⟩

/-- The loop `getFramebufferSizeLoop` only returns a non-degenerate size, and every
size polled before it was degenerate. -/
theorem getFramebufferSizeLoop_spec (sizes : List (Nat × Nat))
    (sz : Nat × Nat) (evs : List Event)
    (h : getFramebufferSizeLoop sizes = some (sz, evs)) :
    0 < sz.1 ∧ 0 < sz.2 ∧
    evs = (sizes.takeWhile fun p => p.1 = 0 ∨ p.2 = 0).map
            (fun p => Event.pollFramebufferSize p.1 p.2) ++
          [Event.pollFramebufferSize sz.1 sz.2] := by
  induction sizes generalizing evs with
  | nil => exact Option.noConfusion h
  | cons p rest ih =>
    obtain ⟨w, hgt⟩ := p
    unfold getFramebufferSizeLoop at h
    by_cases hz : w = 0 ∨ hgt = 0
    · rw [if_pos hz] at h
      cases hr : getFramebufferSizeLoop rest with
      | none => rw [hr] at h; exact Option.noConfusion h
      | some r =>
        obtain ⟨sz', evs'⟩ := r
        rw [hr] at h
        simp only [Option.some.injEq, Prod.mk.injEq] at h
        obtain ⟨hsz, hevs⟩ := h
        subst hsz
        obtain ⟨h1, h2, h3⟩ := ih evs' hr
        refine ⟨h1, h2, ?_⟩
        rw [← hevs, h3]
        simp [List.takeWhile, hz]
    · rw [if_neg hz] at h
      simp only [Option.some.injEq, Prod.mk.injEq] at h
      obtain ⟨hsz, hevs⟩ := h
      subst hsz
      push_neg at hz
      refine ⟨Nat.pos_of_ne_zero hz.1, Nat.pos_of_ne_zero hz.2, ?_⟩
      rw [← hevs]
      simp [List.takeWhile, hz.1, hz.2]

/-- The first three device calls of any completed `drawFrame` are the fence
wait, the fence reset and the image acquisition, in that order. -/
theorem drawFrame_trace_prefix (s : AppState) (d : DeviceResponse)
    (o : Outcome) (s' : AppState) (tr : List Event)
    (h : drawFrame s d = some (o, s', tr)) :
    ∃ s1 rest, vkWaitForFences s s.currentFrame = some s1 ∧
      tr = Event.waitFence s.currentFrame true UINT64_MAX ::
           Event.resetFence s.currentFrame ::
           Event.acquireImage s.currentFrame UINT64_MAX :: rest := by
  unfold drawFrame at h
  cases hw : vkWaitForFences s s.currentFrame with
  | none => rw [hw] at h; exact Option.noConfusion h
  | some s1 =>
    rw [hw] at h
    simp only [] at h
    refine ⟨s1, ?_⟩
    by_cases hacq : d.acquireResult = VkResult.errorOutOfDateKHR
    · rw [if_pos hacq] at h
      cases hr : recreateSwapChain (vkResetFences s1 s.currentFrame)
          d.framebufferSizes d.swapchainCompatible with
      | none => rw [hr] at h; exact Option.noConfusion h
      | some r =>
        obtain ⟨res, s3, rEvs⟩ := r
        rw [hr] at h
        cases res with
        | none =>
          simp only [Option.some.injEq, Prod.mk.injEq] at h
          exact ⟨rEvs, rfl, h.2.2.symm⟩
        | some m =>
          simp only [Option.some.injEq, Prod.mk.injEq] at h
          exact ⟨rEvs, rfl, h.2.2.symm⟩
    · rw [if_neg hacq] at h
      by_cases hbad : d.acquireResult ≠ VkResult.success ∧
          d.acquireResult ≠ VkResult.suboptimalKHR
      · rw [if_pos hbad] at h
        simp only [Option.some.injEq, Prod.mk.injEq] at h
        exact ⟨[], rfl, h.2.2.symm⟩
      · rw [if_neg hbad] at h
        by_cases hsub : d.submitOk = false
        · rw [if_pos hsub] at h
          simp only [Option.some.injEq, Prod.mk.injEq] at h
          exact ⟨_, rfl, h.2.2.symm⟩
        · rw [if_neg hsub] at h
          by_cases hpres : d.presentResult = VkResult.errorOutOfDateKHR ∨
              d.presentResult = VkResult.suboptimalKHR ∨
              (armFence (vkResetFences s1 s.currentFrame) s.currentFrame).windowResized = true
          · rw [if_pos hpres] at h
            cases hr : recreateSwapChain
                { armFence (vkResetFences s1 s.currentFrame) s.currentFrame with
                  windowResized := false }
                d.framebufferSizes d.swapchainCompatible with
            | none => rw [hr] at h; exact Option.noConfusion h
            | some r =>
              obtain ⟨res, s5, rEvs⟩ := r
              rw [hr] at h
              cases res with
              | none =>
                simp only [Option.some.injEq, Prod.mk.injEq] at h
                obtain ⟨ho, hs', htr⟩ := h
                subst htr
                simp only [List.cons_append, List.nil_append, List.append_assoc]
                exact ⟨_, trivial, rfl⟩
              | some m =>
                simp only [Option.some.injEq, Prod.mk.injEq] at h
                obtain ⟨ho, hs', htr⟩ := h
                subst htr
                simp only [List.cons_append, List.nil_append, List.append_assoc]
                exact ⟨_, trivial, rfl⟩
          · rw [if_neg hpres] at h
            by_cases hps : d.presentResult ≠ VkResult.success
            · rw [if_pos hps] at h
              simp only [Option.some.injEq, Prod.mk.injEq] at h
              exact ⟨_, rfl, h.2.2.symm⟩
            · rw [if_neg hps] at h
              simp only [Option.some.injEq, Prod.mk.injEq] at h
              exact ⟨_, rfl, h.2.2.symm⟩

/-- Inversion of `drawFrame` on the out-of-date acquisition path
(src/main.cpp:1238-1242): the fence was waited and reset, exactly one
recreation was triggered, and the function returned early. -/
theorem drawFrame_ood_inv (s : AppState) (d : DeviceResponse)
    (o : Outcome) (s' : AppState) (tr : List Event)
    (hacq : d.acquireResult = VkResult.errorOutOfDateKHR)
    (h : drawFrame s d = some (o, s', tr)) :
    ∃ s1 res rEvs, vkWaitForFences s s.currentFrame = some s1 ∧
      recreateSwapChain (vkResetFences s1 s.currentFrame) d.framebufferSizes
        d.swapchainCompatible = some (res, s', rEvs) ∧
      tr = Event.waitFence s.currentFrame true UINT64_MAX ::
           Event.resetFence s.currentFrame ::
           Event.acquireImage s.currentFrame UINT64_MAX :: rEvs ∧
      ((res = none ∧ o = Outcome.skipped) ∨
       (∃ m, res = some m ∧ o = Outcome.fatal m)) := by
  unfold drawFrame at h
  cases hw : vkWaitForFences s s.currentFrame with
  | none => rw [hw] at h; exact Option.noConfusion h
  | some s1 =>
    rw [hw] at h
    simp only [] at h
    rw [if_pos hacq] at h
    cases hr : recreateSwapChain (vkResetFences s1 s.currentFrame)
        d.framebufferSizes d.swapchainCompatible with
    | none => rw [hr] at h; exact Option.noConfusion h
    | some r =>
      obtain ⟨res, s3, rEvs⟩ := r
      rw [hr] at h
      cases res with
      | none =>
        simp only [Option.some.injEq, Prod.mk.injEq] at h
        obtain ⟨ho, hs', htr⟩ := h
        subst hs'
        refine ⟨s1, none, rEvs, rfl, hr, ?_, Or.inl ⟨rfl, ho.symm⟩⟩
        rw [← htr]
        simp
      | some m =>
        simp only [Option.some.injEq, Prod.mk.injEq] at h
        obtain ⟨ho, hs', htr⟩ := h
        subst hs'
        refine ⟨s1, some m, rEvs, rfl, hr, ?_, Or.inr ⟨m, rfl, ho.symm⟩⟩
        rw [← htr]
        simp

/-- Inversion of `drawFrame` when acquisition fails with a result that is
neither success, suboptimal nor out-of-date (src/main.cpp:1243-1246): the
call throws, and no recreation, submit or present happens. -/
theorem drawFrame_acquire_other_inv (s : AppState) (d : DeviceResponse)
    (o : Outcome) (s' : AppState) (tr : List Event)
    (hacq : d.acquireResult = VkResult.errorOther)
    (h : drawFrame s d = some (o, s', tr)) :
    ∃ s1, vkWaitForFences s s.currentFrame = some s1 ∧
      o = Outcome.fatal "failed to acquire swap chain image" ∧
      s' = vkResetFences s1 s.currentFrame ∧
      tr = [Event.waitFence s.currentFrame true UINT64_MAX,
            Event.resetFence s.currentFrame,
            Event.acquireImage s.currentFrame UINT64_MAX] := by
  unfold drawFrame at h
  cases hw : vkWaitForFences s s.currentFrame with
  | none => rw [hw] at h; exact Option.noConfusion h
  | some s1 =>
    rw [hw] at h
    simp only [] at h
    rw [if_neg (by simp [hacq]), if_pos (by simp [hacq])] at h
    simp only [Option.some.injEq, Prod.mk.injEq] at h
    exact ⟨s1, rfl, h.1.symm, h.2.1.symm, h.2.2.symm⟩

theorem vkResetFences_windowResized (s : AppState) (i : Nat) :
    (vkResetFences s i).windowResized = s.windowResized := rfl

theorem armFence_windowResized (s : AppState) (i : Nat) :
    (armFence s i).windowResized = s.windowResized := rfl

theorem vkResetFences_currentFrame (s : AppState) (i : Nat) :
    (vkResetFences s i).currentFrame = s.currentFrame := rfl

theorem armFence_currentFrame (s : AppState) (i : Nat) :
    (armFence s i).currentFrame = s.currentFrame := rfl

/-- Inversion of `drawFrame` when acquisition reports success or suboptimal
(src/main.cpp:1248-1316): the iteration proceeds to submit and, unless the
submit fails, to present; the present result and the resize flag decide
between recreation, throwing, and plain success; in every case the frame
index advances only on the non-skipped paths. -/
theorem drawFrame_normal_inv (s : AppState) (d : DeviceResponse)
    (o : Outcome) (s' : AppState) (tr : List Event)
    (hacq : d.acquireResult = VkResult.success ∨
            d.acquireResult = VkResult.suboptimalKHR)
    (h : drawFrame s d = some (o, s', tr)) :
    ∃ s1, vkWaitForFences s s.currentFrame = some s1 ∧
      (let cur := s.currentFrame
       let sems : List (SemKind × Nat) :=
         if s.graphicsFamily ≠ s.presentFamily then
           [(SemKind.renderFinished, cur)]
         else []
       let tr0 := [Event.waitFence cur true UINT64_MAX, Event.resetFence cur,
                   Event.acquireImage cur UINT64_MAX,
                   Event.updateUniformBuffer d.acquireImageIndex,
                   Event.queueSubmit [(SemKind.imageAvailable, cur)]
                     [PipelineStage.colorAttachmentOutput] d.acquireImageIndex
                     sems cur]
       (d.submitOk = false ∧
        o = Outcome.fatal "failed to submit draw command buffer" ∧
        s' = vkResetFences s1 cur ∧ tr = tr0) ∨
       (d.submitOk = true ∧
        let s3 := armFence (vkResetFences s1 cur) cur
        let tr1 := tr0 ++ [Event.queuePresent sems d.acquireImageIndex]
        (((d.presentResult = VkResult.errorOutOfDateKHR ∨
           d.presentResult = VkResult.suboptimalKHR ∨
           s1.windowResized = true) ∧
          ∃ res s5 rEvs,
            recreateSwapChain { s3 with windowResized := false }
              d.framebufferSizes d.swapchainCompatible = some (res, s5, rEvs) ∧
            tr = tr1 ++ rEvs ∧
            ((res = none ∧ o = Outcome.ok ∧
              s' = { s5 with
                     currentFrame := (s5.currentFrame + 1) % MAX_FRAMES_IN_FLIGHT }) ∨
             (∃ m, res = some m ∧ o = Outcome.fatal m ∧ s' = s5))) ∨
         (¬(d.presentResult = VkResult.errorOutOfDateKHR ∨
            d.presentResult = VkResult.suboptimalKHR ∨
            s1.windowResized = true) ∧
          d.presentResult = VkResult.errorOther ∧
          o = Outcome.fatal "failed to present swap chain image" ∧
          s' = s3 ∧ tr = tr1) ∨
         (¬(d.presentResult = VkResult.errorOutOfDateKHR ∨
            d.presentResult = VkResult.suboptimalKHR ∨
            s1.windowResized = true) ∧
          d.presentResult = VkResult.success ∧ o = Outcome.ok ∧
          s' = { s3 with
                 currentFrame := (s3.currentFrame + 1) % MAX_FRAMES_IN_FLIGHT } ∧
          tr = tr1)))) := by
  unfold drawFrame at h
  cases hw : vkWaitForFences s s.currentFrame with
  | none => rw [hw] at h; exact Option.noConfusion h
  | some s1 =>
    rw [hw] at h
    simp only [] at h
    have hne : ¬(d.acquireResult = VkResult.errorOutOfDateKHR) := by
      rcases hacq with h1 | h1 <;> simp [h1]
    have hgood : ¬(d.acquireResult ≠ VkResult.success ∧
        d.acquireResult ≠ VkResult.suboptimalKHR) := by
      rcases hacq with h1 | h1 <;> simp [h1]
    rw [if_neg hne, if_neg hgood] at h
    refine ⟨s1, rfl, ?_⟩
    simp only []
    by_cases hsub : d.submitOk = false
    · rw [if_pos hsub] at h
      simp only [Option.some.injEq, Prod.mk.injEq] at h
      exact Or.inl ⟨hsub, h.1.symm, h.2.1.symm, by rw [← h.2.2]; simp⟩
    · rw [if_neg hsub] at h
      have hsubT : d.submitOk = true := by
        cases hd : d.submitOk
        · exact absurd hd hsub
        · rfl
      have hpresEq :
          (armFence (vkResetFences s1 s.currentFrame) s.currentFrame).windowResized
            = s1.windowResized := rfl
      by_cases hpres : d.presentResult = VkResult.errorOutOfDateKHR ∨
          d.presentResult = VkResult.suboptimalKHR ∨ s1.windowResized = true
      · rw [if_pos (by rw [hpresEq]; exact hpres)] at h
        cases hr : recreateSwapChain
            { armFence (vkResetFences s1 s.currentFrame) s.currentFrame with
              windowResized := false }
            d.framebufferSizes d.swapchainCompatible with
        | none => rw [hr] at h; exact Option.noConfusion h
        | some r =>
          obtain ⟨res, s5, rEvs⟩ := r
          rw [hr] at h
          cases res with
          | none =>
            simp only [Option.some.injEq, Prod.mk.injEq] at h
            obtain ⟨ho, hs', htr⟩ := h
            refine Or.inr ⟨hsubT, Or.inl ⟨hpres, none, s5, rEvs, rfl, ?_,
              Or.inl ⟨rfl, ho.symm, hs'.symm⟩⟩⟩
            rw [← htr]
            simp
          | some m =>
            simp only [Option.some.injEq, Prod.mk.injEq] at h
            obtain ⟨ho, hs', htr⟩ := h
            refine Or.inr ⟨hsubT, Or.inl ⟨hpres, some m, s5, rEvs, rfl, ?_,
              Or.inr ⟨m, rfl, ho.symm, hs'.symm⟩⟩⟩
            rw [← htr]
            simp
      · rw [if_neg (by rw [hpresEq]; exact hpres)] at h
        by_cases hps : d.presentResult ≠ VkResult.success
        · rw [if_pos hps] at h
          simp only [Option.some.injEq, Prod.mk.injEq] at h
          obtain ⟨ho, hs', htr⟩ := h
          have hother : d.presentResult = VkResult.errorOther := by
            cases hd : d.presentResult
            · exact absurd hd hps
            · exact absurd (Or.inr (Or.inl hd)) hpres
            · exact absurd (Or.inl hd) hpres
            · rfl
          refine Or.inr ⟨hsubT, Or.inr (Or.inl ⟨hpres, hother, ho.symm, hs'.symm, ?_⟩)⟩
          rw [← htr]
          simp
        · rw [if_neg hps] at h
          simp only [Option.some.injEq, Prod.mk.injEq] at h
          obtain ⟨ho, hs', htr⟩ := h
          have hsucc : d.presentResult = VkResult.success := by
            by_contra hc
            exact hps hc
          refine Or.inr ⟨hsubT, Or.inr (Or.inr ⟨hpres, hsucc, ho.symm, hs'.symm, ?_⟩)⟩
          rw [← htr]
          simp

theorem vkResetFences_slots_length (s : AppState) (i : Nat) :
    (vkResetFences s i).slots.length = s.slots.length :=
  updateSlot_length ..

theorem armFence_slots_length (s : AppState) (i : Nat) :
    (armFence s i).slots.length = s.slots.length :=
  updateSlot_length ..

theorem vkDeviceWaitIdle_slots_length (s : AppState) :
    (vkDeviceWaitIdle s).slots.length = s.slots.length :=
  List.length_map ..

/-- Every completed `drawFrame` preserves the number of frame slots. -/
theorem drawFrame_slots_length (s : AppState) (d : DeviceResponse)
    (o : Outcome) (s' : AppState) (tr : List Event)
    (h : drawFrame s d = some (o, s', tr)) :
    s'.slots.length = s.slots.length := by
  cases hacq : d.acquireResult with
  | errorOutOfDateKHR =>
    obtain ⟨s1, res, rEvs, hw, hr, -, -⟩ := drawFrame_ood_inv s d o s' tr hacq h
    obtain ⟨-, -, -, hslots, -⟩ := recreateSwapChain_inv _ _ _ _ _ _ hr
    rw [hslots, vkDeviceWaitIdle_slots_length, vkResetFences_slots_length,
        (vkWaitForFences_some s _ s1 hw).2.2.2.2.1]
  | errorOther =>
    obtain ⟨s1, hw, -, hs', -⟩ := drawFrame_acquire_other_inv s d o s' tr hacq h
    rw [hs', vkResetFences_slots_length,
        (vkWaitForFences_some s _ s1 hw).2.2.2.2.1]
  | success =>
    obtain ⟨s1, hw, hrest⟩ := drawFrame_normal_inv s d o s' tr (Or.inl hacq) h
    have hlen1 : s1.slots.length = s.slots.length :=
      (vkWaitForFences_some s _ s1 hw).2.2.2.2.1
    simp only [] at hrest
    rcases hrest with ⟨-, -, hs', -⟩ | ⟨-, hrest⟩
    · rw [hs', vkResetFences_slots_length, hlen1]
    · rcases hrest with ⟨-, res, s5, rEvs, hr, -, hcase⟩ | ⟨-, -, -, hs', -⟩ |
        ⟨-, -, -, hs', -⟩
      · obtain ⟨-, -, -, hslots, -⟩ := recreateSwapChain_inv _ _ _ _ _ _ hr
        have hlen5 : s5.slots.length = s.slots.length := by
          rw [hslots]
          simp only [vkDeviceWaitIdle_slots_length]
          rw [armFence_slots_length, vkResetFences_slots_length, hlen1]
        rcases hcase with ⟨-, -, hs'⟩ | ⟨m, -, -, hs'⟩
        · rw [hs']; exact hlen5
        · rw [hs']; exact hlen5
      · rw [hs', armFence_slots_length, vkResetFences_slots_length, hlen1]
      · rw [hs']
        simp only []
        rw [armFence_slots_length, vkResetFences_slots_length, hlen1]
  | suboptimalKHR =>
    obtain ⟨s1, hw, hrest⟩ := drawFrame_normal_inv s d o s' tr (Or.inr hacq) h
    have hlen1 : s1.slots.length = s.slots.length :=
      (vkWaitForFences_some s _ s1 hw).2.2.2.2.1
    simp only [] at hrest
    rcases hrest with ⟨-, -, hs', -⟩ | ⟨-, hrest⟩
    · rw [hs', vkResetFences_slots_length, hlen1]
    · rcases hrest with ⟨-, res, s5, rEvs, hr, -, hcase⟩ | ⟨-, -, -, hs', -⟩ |
        ⟨-, -, -, hs', -⟩
      · obtain ⟨-, -, -, hslots, -⟩ := recreateSwapChain_inv _ _ _ _ _ _ hr
        have hlen5 : s5.slots.length = s.slots.length := by
          rw [hslots]
          simp only [vkDeviceWaitIdle_slots_length]
          rw [armFence_slots_length, vkResetFences_slots_length, hlen1]
        rcases hcase with ⟨-, -, hs'⟩ | ⟨m, -, -, hs'⟩
        · rw [hs']; exact hlen5
        · rw [hs']; exact hlen5
      · rw [hs', armFence_slots_length, vkResetFences_slots_length, hlen1]
      · rw [hs']
        simp only []
        rw [armFence_slots_length, vkResetFences_slots_length, hlen1]

/-- No event of a completed `recreateSwapChain`'s trace is a queue submit
or a queue present: recreation issues no rendering work of its own. -/
theorem recreate_trace_events (s : AppState) (sizes : List (Nat × Nat))
    (c : Bool) (res : Option String) (s' : AppState) (evs : List Event)
    (h : recreateSwapChain s sizes c = some (res, s', evs)) :
    ∀ e ∈ evs, isSubmitEvent e = false ∧ isPresentEvent e = false ∧
      (isBeginRecreate e = true → e = Event.beginRecreate) := by
  obtain ⟨sz, pollEvs, hl, -, -, -, -, -, hcase⟩ :=
    recreateSwapChain_inv s sizes c res s' evs h
  obtain ⟨-, -, hpoll⟩ := getFramebufferSizeLoop_spec sizes sz pollEvs hl
  have hpolls : ∀ e ∈ pollEvs, isSubmitEvent e = false ∧ isPresentEvent e = false ∧
      (isBeginRecreate e = true → e = Event.beginRecreate) := by
    rw [hpoll]
    intro e he
    rcases List.mem_append.mp he with hm | hm
    · obtain ⟨p, -, rfl⟩ := List.mem_map.mp hm
      exact ⟨rfl, rfl, by intro hbad; exact absurd hbad (by simp [isBeginRecreate])⟩
    · rw [List.mem_singleton.mp hm]
      exact ⟨rfl, rfl, by intro hbad; exact absurd hbad (by simp [isBeginRecreate])⟩
  have hconcrete : ∀ e ∈ cleanupSwapChain ++ rebuildSwapChain,
      isSubmitEvent e = false ∧ isPresentEvent e = false ∧
      (isBeginRecreate e = true → e = Event.beginRecreate) := by decide
  rcases hcase with ⟨-, -, hevs⟩ | ⟨-, -, hevs⟩ <;> rw [hevs] <;> intro e he
  · rcases List.mem_cons.mp he with rfl | he
    · exact ⟨rfl, rfl, fun _ => rfl⟩
    · rcases List.mem_append.mp he with hm | hm
      · exact hpolls e hm
      · rcases List.mem_cons.mp hm with rfl | hm
        · exact ⟨rfl, rfl, by intro hbad; exact absurd hbad (by simp [isBeginRecreate])⟩
        · exact hconcrete e hm
  · rcases List.mem_cons.mp he with rfl | he
    · exact ⟨rfl, rfl, fun _ => rfl⟩
    · rcases List.mem_append.mp he with hm | hm
      · exact hpolls e hm
      · rcases List.mem_cons.mp hm with rfl | hm
        · exact ⟨rfl, rfl, by intro hbad; exact absurd hbad (by simp [isBeginRecreate])⟩
        · exact hconcrete e (List.mem_append.mpr (Or.inl hm))

/-- A completed recreation's trace contains exactly one entry into
`recreateSwapChain`. -/
theorem countRecreates_recreate_trace (s : AppState) (sizes : List (Nat × Nat))
    (c : Bool) (res : Option String) (s' : AppState) (evs : List Event)
    (h : recreateSwapChain s sizes c = some (res, s', evs)) :
    countRecreates evs = 1 := by
  obtain ⟨sz, pollEvs, hl, -, -, -, -, -, hcase⟩ :=
    recreateSwapChain_inv s sizes c res s' evs h
  obtain ⟨-, -, hpoll⟩ := getFramebufferSizeLoop_spec sizes sz pollEvs hl
  have hpolls : pollEvs.filter isBeginRecreate = [] := by
    rw [hpoll, List.filter_eq_nil_iff]
    intro e he
    rcases List.mem_append.mp he with hm | hm
    · obtain ⟨p, -, rfl⟩ := List.mem_map.mp hm
      simp [isBeginRecreate]
    · rw [List.mem_singleton.mp hm]
      simp [isBeginRecreate]
  have hclean : cleanupSwapChain.filter isBeginRecreate = [] := by decide
  have hrebuild : rebuildSwapChain.filter isBeginRecreate = [] := by decide
  rcases hcase with ⟨-, -, hevs⟩ | ⟨-, -, hevs⟩ <;> rw [hevs] <;>
    simp [countRecreates, List.filter_append, hpolls, hclean, hrebuild,
          isBeginRecreate]

theorem submitEvents_recreate (s : AppState) (sizes : List (Nat × Nat))
    (c : Bool) (res : Option String) (s' : AppState) (evs : List Event)
    (h : recreateSwapChain s sizes c = some (res, s', evs)) :
    submitEvents evs = [] ∧ presentEvents evs = [] := by
  constructor
  · rw [submitEvents, List.filter_eq_nil_iff]
    intro e he
    simp [(recreate_trace_events s sizes c res s' evs h e he).1]
  · rw [presentEvents, List.filter_eq_nil_iff]
    intro e he
    simp [(recreate_trace_events s sizes c res s' evs h e he).2.1]

/-! ## Concrete fixtures -/

/-- The slots created at startup: every fence signaled, nothing pending. -/
def initSlots : List Slot :=
  List.replicate MAX_FRAMES_IN_FLIGHT { fenceSignaled := true, pending := false }

/-- A freshly initialized application whose graphics and present queue
families are the same (index 0), as on typical desktop hardware. -/
def sampleState : AppState := mkInitialState 0 0 initSlots

/-- A device on which every call succeeds immediately. -/
def allSuccess : DeviceResponse :=
  { acquireResult := VkResult.success, acquireImageIndex := 0, submitOk := true,
    presentResult := VkResult.success, framebufferSizes := [(100, 100)],
    swapchainCompatible := true }

/-- The state after one successful `drawFrame` from `sampleState`. -/
def witState1 : AppState :=
  { currentFrame := 1,
    slots := [{ fenceSignaled := false, pending := true },
              { fenceSignaled := true, pending := false }],
    windowResized := false, graphicsFamily := 0, presentFamily := 0,
    swapchainGeneration := 0 }

/-- The trace of one successful `drawFrame` from `sampleState`. -/
def witTrace1 : List Event :=
  [Event.waitFence 0 true UINT64_MAX, Event.resetFence 0,
   Event.acquireImage 0 UINT64_MAX, Event.updateUniformBuffer 0,
   Event.queueSubmit [(SemKind.imageAvailable, 0)]
     [PipelineStage.colorAttachmentOutput] 0 [] 0,
   Event.queuePresent [] 0]

/-! ## Claim theorems -/

/-- C1: every completed `drawFrame` first blocks on the current slot's
completion fence with wait-all semantics (`VK_TRUE`) and an infinite timeout
(`UINT64_MAX`), then resets that fence, and only then acquires an image; the
wait only ever returns with the slot's fence signaled, so a slot is never
reused while its prior fence is unsignaled; and the number of slots holding
submitted-but-unfinished work never exceeds `MAX_FRAMES_IN_FLIGHT`. -/
theorem drawFrame_fence_discipline (s : AppState) (d : DeviceResponse)
    (o : Outcome) (s' : AppState) (tr : List Event)
    (hN : s.slots.length = MAX_FRAMES_IN_FLIGHT)
    (h : drawFrame s d = some (o, s', tr)) :
    (∃ rest, tr = Event.waitFence s.currentFrame true UINT64_MAX ::
                  Event.resetFence s.currentFrame ::
                  Event.acquireImage s.currentFrame UINT64_MAX :: rest) ∧
    (∀ s1, vkWaitForFences s s.currentFrame = some s1 →
       ∃ sl, s1.slots[s.currentFrame]? = some sl ∧ sl.fenceSignaled = true) ∧
    countSubmitted s' ≤ MAX_FRAMES_IN_FLIGHT := by
  refine ⟨?_, ?_, ?_⟩
  · obtain ⟨s1, rest, -, htr⟩ := drawFrame_trace_prefix s d o s' tr h
    exact ⟨rest, htr⟩
  · intro s1 hw
    exact (vkWaitForFences_some s _ s1 hw).2.2.2.2.2
  · calc countSubmitted s' ≤ s'.slots.length := countSubmitted_le_length s'
    _ = s.slots.length := drawFrame_slots_length s d o s' tr h
    _ = MAX_FRAMES_IN_FLIGHT := hN

/-- Witness for C1: the fence discipline instantiated at a freshly started
application and an all-success device. -/
theorem drawFrame_fence_discipline_witness :
    (∃ rest, witTrace1 = Event.waitFence sampleState.currentFrame true UINT64_MAX ::
                 Event.resetFence sampleState.currentFrame ::
                 Event.acquireImage sampleState.currentFrame UINT64_MAX :: rest) ∧
    (∀ s1, vkWaitForFences sampleState sampleState.currentFrame = some s1 →
       ∃ sl, s1.slots[sampleState.currentFrame]? = some sl ∧ sl.fenceSignaled = true) ∧
    countSubmitted witState1 ≤ MAX_FRAMES_IN_FLIGHT :=
  drawFrame_fence_discipline sampleState allSuccess Outcome.ok witState1 witTrace1
    (by decide) (by decide)

/-- C3: when acquisition reports out-of-date (and the swapchain is still
compatible, so recreation completes), `drawFrame` triggers exactly one
swapchain recreation and returns early, submitting and presenting nothing;
when acquisition reports suboptimal the iteration proceeds to submission;
any other non-success acquisition result throws a fatal error. -/
theorem drawFrame_acquire_policy (s : AppState) (d : DeviceResponse)
    (o : Outcome) (s' : AppState) (tr : List Event)
    (h : drawFrame s d = some (o, s', tr)) :
    (d.acquireResult = VkResult.errorOutOfDateKHR → d.swapchainCompatible = true →
      o = Outcome.skipped ∧ countRecreates tr = 1 ∧
      submitEvents tr = [] ∧ presentEvents tr = []) ∧
    (d.acquireResult = VkResult.suboptimalKHR → submitEvents tr ≠ []) ∧
    (d.acquireResult = VkResult.errorOther →
      o = Outcome.fatal "failed to acquire swap chain image") := by
  refine ⟨?_, ?_, ?_⟩
  · intro hacq hcomp
    obtain ⟨s1, res, rEvs, hw, hr, htr, hcase⟩ := drawFrame_ood_inv s d o s' tr hacq h
    obtain ⟨sz, pollEvs, hl, hslots, hcf, hwr, hgf, hpf, hc⟩ :=
      recreateSwapChain_inv _ _ _ _ _ _ hr
    have hres : res = none := by
      rcases hc with ⟨-, hres, -⟩ | ⟨hfalse, -, -⟩
      · exact hres
      · rw [hcomp] at hfalse
        exact absurd hfalse (by simp)
    have ho : o = Outcome.skipped := by
      rcases hcase with ⟨-, ho⟩ | ⟨m, hm, -⟩
      · exact ho
      · rw [hres] at hm
        exact Option.noConfusion hm
    have hcnt := countRecreates_recreate_trace _ _ _ _ _ _ hr
    have hsub := submitEvents_recreate _ _ _ _ _ _ hr
    refine ⟨ho, ?_, ?_, ?_⟩
    · rw [htr]
      simp only [countRecreates, List.filter_cons] at hcnt ⊢
      simpa [isBeginRecreate] using hcnt
    · rw [htr]
      simp only [submitEvents, List.filter_cons] at hsub ⊢
      simpa [isSubmitEvent] using hsub.1
    · rw [htr]
      simp only [presentEvents, List.filter_cons] at hsub ⊢
      simpa [isPresentEvent] using hsub.2
  · intro hacq
    obtain ⟨s1, -, hrest⟩ := drawFrame_normal_inv s d o s' tr (Or.inr hacq) h
    simp only [] at hrest
    rcases hrest with ⟨-, -, -, htr⟩ | ⟨-, hrest⟩
    · rw [htr]
      simp [submitEvents, isSubmitEvent, List.filter_cons]
    · rcases hrest with ⟨-, res, s5, rEvs, -, htr, -⟩ | ⟨-, -, -, -, htr⟩ |
        ⟨-, -, -, -, htr⟩ <;> rw [htr] <;>
        simp [submitEvents, isSubmitEvent, List.filter_cons, List.filter_append]
  · intro hacq
    obtain ⟨-, -, ho, -, -⟩ := drawFrame_acquire_other_inv s d o s' tr hacq h
    exact ho

/-- Witness for C3 at a concrete out-of-date acquisition. -/
theorem drawFrame_acquire_policy_witness :
    Outcome.skipped = Outcome.skipped ∧
    countRecreates (Event.waitFence 0 true UINT64_MAX :: Event.resetFence 0 ::
      Event.acquireImage 0 UINT64_MAX :: Event.beginRecreate ::
      Event.pollFramebufferSize 100 100 :: Event.deviceWaitIdle ::
      (cleanupSwapChain ++ rebuildSwapChain)) = 1 ∧
    submitEvents (Event.waitFence 0 true UINT64_MAX :: Event.resetFence 0 ::
      Event.acquireImage 0 UINT64_MAX :: Event.beginRecreate ::
      Event.pollFramebufferSize 100 100 :: Event.deviceWaitIdle ::
      (cleanupSwapChain ++ rebuildSwapChain)) = [] ∧
    presentEvents (Event.waitFence 0 true UINT64_MAX :: Event.resetFence 0 ::
      Event.acquireImage 0 UINT64_MAX :: Event.beginRecreate ::
      Event.pollFramebufferSize 100 100 :: Event.deviceWaitIdle ::
      (cleanupSwapChain ++ rebuildSwapChain)) = [] :=
  (drawFrame_acquire_policy sampleState
      { allSuccess with acquireResult := VkResult.errorOutOfDateKHR }
      Outcome.skipped
      { sampleState with
        slots := [{ fenceSignaled := false, pending := false },
                  { fenceSignaled := true, pending := false }],
        swapchainGeneration := 1 }
      (Event.waitFence 0 true UINT64_MAX :: Event.resetFence 0 ::
        Event.acquireImage 0 UINT64_MAX :: Event.beginRecreate ::
        Event.pollFramebufferSize 100 100 :: Event.deviceWaitIdle ::
        (cleanupSwapChain ++ rebuildSwapChain))
      (by decide)).1 rfl rfl

/-- C10: on the out-of-date skip path, `drawFrame` returns with the current
frame index unchanged, submits and presents nothing, and leaves the current
slot's fence reset (unsignaled) with no work in flight to re-arm it.  The
fence-invariant hypothesis says a signaled fence has no outstanding work,
which holds of every reachable state. -/
theorem drawFrame_skip_frame_effect (s : AppState) (d : DeviceResponse)
    (o : Outcome) (s' : AppState) (tr : List Event)
    (hwf : ∀ sl ∈ s.slots, sl.fenceSignaled = true → sl.pending = false)
    (hacq : d.acquireResult = VkResult.errorOutOfDateKHR)
    (hcomp : d.swapchainCompatible = true)
    (h : drawFrame s d = some (o, s', tr)) :
    o = Outcome.skipped ∧ s'.currentFrame = s.currentFrame ∧
    submitEvents tr = [] ∧ presentEvents tr = [] ∧
    ∃ sl, s'.slots[s.currentFrame]? = some sl ∧
      sl.fenceSignaled = false ∧ sl.pending = false := by
  obtain ⟨s1, res, rEvs, hw, hr, htr, hcase⟩ := drawFrame_ood_inv s d o s' tr hacq h
  obtain ⟨sz, pollEvs, hl, hslots, hcf, hwr, hgf, hpf, hc⟩ :=
    recreateSwapChain_inv _ _ _ _ _ _ hr
  have hres : res = none := by
    rcases hc with ⟨-, hres, -⟩ | ⟨hfalse, -, -⟩
    · exact hres
    · rw [hcomp] at hfalse
      exact absurd hfalse (by simp)
  have ho : o = Outcome.skipped := by
    rcases hcase with ⟨-, ho⟩ | ⟨m, hm, -⟩
    · exact ho
    · rw [hres] at hm
      exact Option.noConfusion hm
  have hw1 := vkWaitForFences_some s s.currentFrame s1 hw
  obtain ⟨sl1, hg1, hsig1, hpend1⟩ :=
    vkWaitForFences_not_pending s s.currentFrame s1 hwf hw
  have hg2 : (vkResetFences s1 s.currentFrame).slots[s.currentFrame]? =
      some { sl1 with fenceSignaled := false } := by
    simp only [vkResetFences]
    exact getElem?_updateSlot_self _ _ _ _ hg1
  have hg3 : (vkDeviceWaitIdle (vkResetFences s1 s.currentFrame)).slots[s.currentFrame]? =
      some { sl1 with fenceSignaled := false } := by
    simp only [vkDeviceWaitIdle, List.getElem?_map, hg2]
    simp [hpend1]
  have hsub := submitEvents_recreate _ _ _ _ _ _ hr
  refine ⟨ho, ?_, ?_, ?_, ?_⟩
  · rw [hcf, vkResetFences_currentFrame, hw1.1]
  · rw [htr]
    simp only [submitEvents, List.filter_cons] at hsub ⊢
    simpa [isSubmitEvent] using hsub.1
  · rw [htr]
    simp only [presentEvents, List.filter_cons] at hsub ⊢
    simpa [isPresentEvent] using hsub.2
  · refine ⟨{ sl1 with fenceSignaled := false }, ?_, rfl, hpend1⟩
    rw [hslots]
    exact hg3

/-- Witness for C10 at a concrete out-of-date acquisition. -/
theorem drawFrame_skip_frame_effect_witness :
    Outcome.skipped = Outcome.skipped ∧
    ({ sampleState with
       slots := [{ fenceSignaled := false, pending := false },
                 { fenceSignaled := true, pending := false }],
       swapchainGeneration := 1 } : AppState).currentFrame =
      sampleState.currentFrame ∧
    submitEvents (Event.waitFence 0 true UINT64_MAX :: Event.resetFence 0 ::
      Event.acquireImage 0 UINT64_MAX :: Event.beginRecreate ::
      Event.pollFramebufferSize 100 100 :: Event.deviceWaitIdle ::
      (cleanupSwapChain ++ rebuildSwapChain)) = [] ∧
    presentEvents (Event.waitFence 0 true UINT64_MAX :: Event.resetFence 0 ::
      Event.acquireImage 0 UINT64_MAX :: Event.beginRecreate ::
      Event.pollFramebufferSize 100 100 :: Event.deviceWaitIdle ::
      (cleanupSwapChain ++ rebuildSwapChain)) = [] ∧
    ∃ sl, ({ sampleState with
             slots := [{ fenceSignaled := false, pending := false },
                       { fenceSignaled := true, pending := false }],
             swapchainGeneration := 1 } : AppState).slots[sampleState.currentFrame]? =
        some sl ∧ sl.fenceSignaled = false ∧ sl.pending = false :=
  drawFrame_skip_frame_effect sampleState
    { allSuccess with acquireResult := VkResult.errorOutOfDateKHR }
    Outcome.skipped
    { sampleState with
      slots := [{ fenceSignaled := false, pending := false },
                { fenceSignaled := true, pending := false }],
      swapchainGeneration := 1 }
    (Event.waitFence 0 true UINT64_MAX :: Event.resetFence 0 ::
      Event.acquireImage 0 UINT64_MAX :: Event.beginRecreate ::
      Event.pollFramebufferSize 100 100 :: Event.deviceWaitIdle ::
      (cleanupSwapChain ++ rebuildSwapChain))
    (by decide) rfl rfl (by decide)

/-- C4: for an iteration that reaches the present call, a present result of
out-of-date or suboptimal — or a pending resize notification — triggers
exactly one swapchain recreation and clears the resize flag; any other
non-success present result (with no resize pending) throws a fatal error;
plain success (with no resize pending) triggers no recreation. -/
theorem drawFrame_present_policy (s : AppState) (d : DeviceResponse)
    (o : Outcome) (s' : AppState) (tr : List Event)
    (hacq : d.acquireResult = VkResult.success ∨
            d.acquireResult = VkResult.suboptimalKHR)
    (hsubmit : d.submitOk = true)
    (h : drawFrame s d = some (o, s', tr)) :
    ((d.presentResult = VkResult.errorOutOfDateKHR ∨
      d.presentResult = VkResult.suboptimalKHR ∨ s.windowResized = true) →
      countRecreates tr = 1 ∧ s'.windowResized = false) ∧
    (d.presentResult = VkResult.errorOther → s.windowResized = false →
      o = Outcome.fatal "failed to present swap chain image" ∧
      countRecreates tr = 0) ∧
    (d.presentResult = VkResult.success → s.windowResized = false →
      o = Outcome.ok ∧ countRecreates tr = 0) := by
  obtain ⟨s1, hw, hrest⟩ := drawFrame_normal_inv s d o s' tr hacq h
  have hwr1 : s1.windowResized = s.windowResized :=
    (vkWaitForFences_some s s.currentFrame s1 hw).2.1
  simp only [] at hrest
  rcases hrest with ⟨hfail, -, -, -⟩ | ⟨-, hrest⟩
  · rw [hsubmit] at hfail
    exact absurd hfail (by simp)
  rcases hrest with ⟨hpres, res, s5, rEvs, hr, htr, hcase⟩ |
    ⟨hnpres, hother, ho, hs', htr⟩ | ⟨hnpres, hsucc, ho, hs', htr⟩
  · obtain ⟨sz, pollEvs, hl, hslots, hcf, hwr, hgf, hpf, hc⟩ :=
      recreateSwapChain_inv _ _ _ _ _ _ hr
    have hcnt : countRecreates tr = 1 := by
      rw [htr]
      have h1 := countRecreates_recreate_trace _ _ _ _ _ _ hr
      simp only [countRecreates, List.filter_append, List.filter_cons,
                 List.length_append] at h1 ⊢
      simp [isBeginRecreate]
      simpa [countRecreates] using h1
    have hwr5 : s5.windowResized = false := by rw [hwr]
    have hswr : s'.windowResized = false := by
      rcases hcase with ⟨-, -, hs'⟩ | ⟨m, -, -, hs'⟩
      · rw [hs']
        exact hwr5
      · rw [hs']
        exact hwr5
    refine ⟨fun _ => ⟨hcnt, hswr⟩, ?_, ?_⟩
    · intro hother hwrf
      rcases hpres with hp | hp | hp
      · rw [hother] at hp
        exact absurd hp (by simp)
      · rw [hother] at hp
        exact absurd hp (by simp)
      · rw [hwr1, hwrf] at hp
        exact absurd hp (by simp)
    · intro hsucc hwrf
      rcases hpres with hp | hp | hp
      · rw [hsucc] at hp
        exact absurd hp (by simp)
      · rw [hsucc] at hp
        exact absurd hp (by simp)
      · rw [hwr1, hwrf] at hp
        exact absurd hp (by simp)
  · have hcnt : countRecreates tr = 0 := by
      rw [htr]
      simp [countRecreates, List.filter_append, List.filter_cons, isBeginRecreate]
    refine ⟨?_, fun _ _ => ⟨ho, hcnt⟩, ?_⟩
    · intro hcond
      rw [hwr1] at hnpres
      exact absurd hcond hnpres
    · intro hsucc hwrf
      rw [hsucc] at hother
      exact absurd hother (by simp)
  · have hcnt : countRecreates tr = 0 := by
      rw [htr]
      simp [countRecreates, List.filter_append, List.filter_cons, isBeginRecreate]
    refine ⟨?_, ?_, fun _ _ => ⟨ho, hcnt⟩⟩
    · intro hcond
      rw [hwr1] at hnpres
      exact absurd hcond hnpres
    · intro hother hwrf
      rw [hother] at hsucc
      exact absurd hsucc (by simp)

/-- The state after a successful `drawFrame` from `sampleState` with a
pending resize notification: one recreation ran and the flag is clear. -/
def resizedState1 : AppState :=
  { currentFrame := 1,
    slots := [{ fenceSignaled := true, pending := false },
              { fenceSignaled := true, pending := false }],
    windowResized := false, graphicsFamily := 0, presentFamily := 0,
    swapchainGeneration := 1 }

/-- The trace of that iteration: the normal frame followed by exactly one
recreation. -/
def resizedTrace1 : List Event :=
  witTrace1 ++ Event.beginRecreate :: Event.pollFramebufferSize 100 100 ::
    Event.deviceWaitIdle :: (cleanupSwapChain ++ rebuildSwapChain)

/-- Witness for C4: a pending resize with an otherwise successful present
triggers exactly one recreation and clears the flag. -/
theorem drawFrame_present_policy_witness :
    countRecreates resizedTrace1 = 1 ∧ resizedState1.windowResized = false :=
  (drawFrame_present_policy { sampleState with windowResized := true }
      allSuccess Outcome.ok resizedState1 resizedTrace1
      (Or.inl rfl) rfl (by decide)).1 (Or.inr (Or.inr rfl))

theorem framebufferResizeCallback_idem (s : AppState) :
    framebufferResizeCallback (framebufferResizeCallback s) =
      framebufferResizeCallback s := rfl

theorem iterate_framebufferResizeCallback (k : Nat) (s : AppState) :
    framebufferResizeCallback^[k] (framebufferResizeCallback s) =
      framebufferResizeCallback s := by
  induction k with
  | zero => rfl
  | succ n ih =>
    rw [Function.iterate_succ_apply, framebufferResizeCallback_idem, ih]

/-- C7: delivering any number K ≥ 1 of resize notifications between two
frames is the same as delivering one — a single boolean flag is set — and
the next successful frame that observes the flag triggers exactly one
swapchain recreation (not K) and clears the flag. -/
theorem resize_notifications_coalesce :
    (∀ (s : AppState) (K : Nat), 1 ≤ K →
      framebufferResizeCallback^[K] s = framebufferResizeCallback s ∧
      (framebufferResizeCallback^[K] s).windowResized = true) ∧
    (∀ (s : AppState) (d : DeviceResponse) (o : Outcome) (s' : AppState)
       (tr : List Event),
      s.windowResized = true → d.acquireResult = VkResult.success →
      d.submitOk = true → d.presentResult = VkResult.success →
      drawFrame s d = some (o, s', tr) →
      countRecreates tr = 1 ∧ s'.windowResized = false) := by
  constructor
  · intro s K hK
    obtain ⟨k, rfl⟩ := Nat.exists_eq_add_of_le hK
    rw [Nat.add_comm, Function.iterate_succ_apply,
        iterate_framebufferResizeCallback]
    exact ⟨rfl, rfl⟩
  · intro s d o s' tr hres hacq hsubmit hpresOk h
    obtain ⟨s1, hw, hrest⟩ := drawFrame_normal_inv s d o s' tr (Or.inl hacq) h
    have hwr1 : s1.windowResized = s.windowResized :=
      (vkWaitForFences_some s s.currentFrame s1 hw).2.1
    simp only [] at hrest
    rcases hrest with ⟨hfail, -, -, -⟩ | ⟨-, hrest⟩
    · rw [hsubmit] at hfail
      exact absurd hfail (by simp)
    rcases hrest with ⟨hpres, res, s5, rEvs, hr, htr, hcase⟩ |
      ⟨hnpres, -, -, -, -⟩ | ⟨hnpres, -, -, -, -⟩
    · obtain ⟨sz, pollEvs, hl, hslots, hcf, hwr, hgf, hpf, hc⟩ :=
        recreateSwapChain_inv _ _ _ _ _ _ hr
      have hcnt : countRecreates tr = 1 := by
        rw [htr]
        have h1 := countRecreates_recreate_trace _ _ _ _ _ _ hr
        simp only [countRecreates, List.filter_append, List.filter_cons,
                   List.length_append] at h1 ⊢
        simp [isBeginRecreate]
        simpa [countRecreates] using h1
      have hwr5 : s5.windowResized = false := by rw [hwr]
      refine ⟨hcnt, ?_⟩
      rcases hcase with ⟨-, -, hs'⟩ | ⟨m, -, -, hs'⟩
      · rw [hs']
        exact hwr5
      · rw [hs']
        exact hwr5
    · exact absurd (Or.inr (Or.inr (by rw [hwr1, hres]))) hnpres
    · exact absurd (Or.inr (Or.inr (by rw [hwr1, hres]))) hnpres

/-- Witness for C7: three resize notifications collapse into one flag, and
the next successful frame performs exactly one recreation. -/
theorem resize_notifications_coalesce_witness :
    (framebufferResizeCallback^[3] sampleState = framebufferResizeCallback sampleState ∧
     (framebufferResizeCallback^[3] sampleState).windowResized = true) ∧
    (countRecreates resizedTrace1 = 1 ∧ resizedState1.windowResized = false) :=
  ⟨resize_notifications_coalesce.1 sampleState 3 (by decide),
   resize_notifications_coalesce.2 { sampleState with windowResized := true }
     allSuccess Outcome.ok resizedState1 resizedTrace1 rfl rfl rfl rfl (by decide)⟩

/-- Claim C2 as the spec states it: every successful iteration's submit
signals the current slot's render-finished semaphore (alongside waiting on
the image-available semaphore at the color-attachment-output stage and
arming the slot's fence). -/
def submitAlwaysSignalsRenderFinished : Prop :=
  ∀ (s : AppState) (d : DeviceResponse) (o : Outcome) (s' : AppState)
    (tr : List Event),
    drawFrame s d = some (o, s', tr) → o = Outcome.ok →
    Event.queueSubmit [(SemKind.imageAvailable, s.currentFrame)]
      [PipelineStage.colorAttachmentOutput] d.acquireImageIndex
      [(SemKind.renderFinished, s.currentFrame)] s.currentFrame ∈ tr

/-- C2 counterexample: on a device whose graphics and present queue families
are equal (`sampleState`), a fully successful iteration submits with an
*empty* signal-semaphore list (src/main.cpp:1270-1274 guards the signal
semaphore behind `graphics != present`), so the claim as stated is false. -/
theorem submitAlwaysSignalsRenderFinished_false :
    ¬ submitAlwaysSignalsRenderFinished := by
  intro hclaim
  have hmem := hclaim sampleState allSuccess Outcome.ok witState1 witTrace1
    (by decide) rfl
  revert hmem
  decide

/-- C2 (amended): every iteration that reaches the submit call issues exactly
one queue submission, waiting on the current slot's image-available semaphore
at the color-attachment-output stage, with the command buffer selected by the
acquired image index, arming the current slot's fence, and signaling the
current slot's render-finished semaphore exactly when the graphics and
present queue families differ (no semaphore is signaled when they are
equal); a failed submit throws a fatal error, and after a successful submit
the slot holds work in flight. -/
theorem drawFrame_submit_spec (s : AppState) (d : DeviceResponse)
    (o : Outcome) (s' : AppState) (tr : List Event)
    (hacq : d.acquireResult = VkResult.success ∨
            d.acquireResult = VkResult.suboptimalKHR)
    (h : drawFrame s d = some (o, s', tr)) :
    submitEvents tr =
      [Event.queueSubmit [(SemKind.imageAvailable, s.currentFrame)]
        [PipelineStage.colorAttachmentOutput] d.acquireImageIndex
        (if s.graphicsFamily ≠ s.presentFamily then
          [(SemKind.renderFinished, s.currentFrame)]
        else []) s.currentFrame] ∧
    (d.submitOk = false →
      o = Outcome.fatal "failed to submit draw command buffer") ∧
    (d.submitOk = true → d.presentResult = VkResult.success →
      s.windowResized = false →
      ∃ sl, s'.slots[s.currentFrame]? = some sl ∧ sl.pending = true) := by
  obtain ⟨s1, hw, hrest⟩ := drawFrame_normal_inv s d o s' tr hacq h
  have hwr1 : s1.windowResized = s.windowResized :=
    (vkWaitForFences_some s s.currentFrame s1 hw).2.1
  obtain ⟨sl1, hg1, -⟩ := (vkWaitForFences_some s s.currentFrame s1 hw).2.2.2.2.2
  simp only [] at hrest
  rcases hrest with ⟨hfail, ho, -, htr⟩ | ⟨hokSub, hrest⟩
  · refine ⟨?_, fun _ => ho, ?_⟩
    · rw [htr]
      simp [submitEvents, List.filter_cons, isSubmitEvent]
    · intro hT hT2
      rw [hT] at hfail
      exact absurd hfail (by simp)
  · have hpend : d.presentResult = VkResult.success → s.windowResized = false →
        ∃ sl, s'.slots[s.currentFrame]? = some sl ∧ sl.pending = true := by
      intro hpresOk hwrf
      rcases hrest with ⟨hpres, res, s5, rEvs, hr, htr, hcase⟩ |
        ⟨-, hother, -, -, -⟩ | ⟨-, -, -, hs', -⟩
      · rcases hpres with hp | hp | hp
        · rw [hpresOk] at hp
          exact absurd hp (by simp)
        · rw [hpresOk] at hp
          exact absurd hp (by simp)
        · rw [hwr1, hwrf] at hp
          exact absurd hp (by simp)
      · rw [hpresOk] at hother
        exact absurd hother (by simp)
      · have hg2 : (vkResetFences s1 s.currentFrame).slots[s.currentFrame]? =
            some { sl1 with fenceSignaled := false } := by
          simp only [vkResetFences]
          exact getElem?_updateSlot_self _ _ _ _ hg1
        have hg3 : (armFence (vkResetFences s1 s.currentFrame)
            s.currentFrame).slots[s.currentFrame]? =
            some { { sl1 with fenceSignaled := false } with pending := true } := by
          simp only [armFence]
          exact getElem?_updateSlot_self _ _ _ _ hg2
        rw [hs']
        exact ⟨_, hg3, rfl⟩
    rcases hrest with ⟨hpres, res, s5, rEvs, hr, htr, hcase⟩ |
      ⟨hnp, hother, ho, hs', htr⟩ | ⟨hnp, hsucc, ho, hs', htr⟩
    · refine ⟨?_, ?_, fun _ => hpend⟩
      · rw [htr]
        have hsub := (submitEvents_recreate _ _ _ _ _ _ hr).1
        simp only [submitEvents, List.filter_append, List.filter_cons] at hsub ⊢
        simp [isSubmitEvent]
        simpa [submitEvents] using hsub
      · intro hF
        rw [hF] at hokSub
        exact absurd hokSub (by simp)
    · refine ⟨?_, ?_, fun _ => hpend⟩
      · rw [htr]
        simp [submitEvents, List.filter_append, List.filter_cons, isSubmitEvent]
      · intro hF
        rw [hF] at hokSub
        exact absurd hokSub (by simp)
    · refine ⟨?_, ?_, fun _ => hpend⟩
      · rw [htr]
        simp [submitEvents, List.filter_append, List.filter_cons, isSubmitEvent]
      · intro hF
        rw [hF] at hokSub
        exact absurd hokSub (by simp)

/-- Witness for C2's amended theorem: the successful iteration from
`sampleState` (equal queue families) submits with an empty signal list, and
leaves slot 0's work in flight. -/
theorem drawFrame_submit_spec_witness :
    submitEvents witTrace1 =
      [Event.queueSubmit [(SemKind.imageAvailable, 0)]
        [PipelineStage.colorAttachmentOutput] 0
        (if (0 : Nat) ≠ (0 : Nat) then [(SemKind.renderFinished, 0)] else [])
        0] ∧
    ∃ sl, witState1.slots[sampleState.currentFrame]? = some sl ∧
      sl.pending = true := by
  have hspec := drawFrame_submit_spec sampleState allSuccess Outcome.ok
    witState1 witTrace1 (Or.inl rfl) (by decide)
  exact ⟨hspec.1, hspec.2.2 rfl rfl rfl⟩

/-- C5: on a completed recreation (with a compatible swapchain), the call
drains the device — leaving no slot in `SUBMITTED` state when teardown
begins — and its trace is: framebuffer-size polls, then `vkDeviceWaitIdle`,
then the teardown of the swapchain and every resource sized to it
(descriptor pool, per-image uniform buffers, command buffers, pipeline,
pipeline layout, render pass, framebuffers, image views, swapchain — the
order of `cleanupSwapChain`), and only then the rebuild. -/
theorem recreateSwapChain_idle_before_teardown (s : AppState)
    (sizes : List (Nat × Nat)) (res : Option String) (s' : AppState)
    (evs : List Event)
    (h : recreateSwapChain s sizes true = some (res, s', evs)) :
    res = none ∧
    countSubmitted (vkDeviceWaitIdle s) = 0 ∧
    ∃ pollEvs, (∀ e ∈ pollEvs, isPollEvent e = true) ∧
      evs = Event.beginRecreate :: pollEvs ++ Event.deviceWaitIdle ::
            (cleanupSwapChain ++ rebuildSwapChain) := by
  obtain ⟨sz, pollEvs, hl, hslots, hcf, hwr, hgf, hpf, hc⟩ :=
    recreateSwapChain_inv _ _ _ _ _ _ h
  obtain ⟨hpos1, hpos2, hpoll⟩ := getFramebufferSizeLoop_spec _ _ _ hl
  rcases hc with ⟨htt, hres, hevs⟩ | ⟨hfalse, hr1, hr2⟩
  · refine ⟨hres, countSubmitted_vkDeviceWaitIdle s, pollEvs, ?_, hevs⟩
    rw [hpoll]
    intro e he
    rcases List.mem_append.mp he with hm | hm
    · obtain ⟨p, hp, rfl⟩ := List.mem_map.mp hm
      rfl
    · rw [List.mem_singleton.mp hm]
      rfl
  · exact absurd hfalse (by simp)

/-- Witness for C5 at a concrete recreation from `sampleState`. -/
theorem recreateSwapChain_idle_before_teardown_witness :
    (none : Option String) = none ∧
    countSubmitted (vkDeviceWaitIdle sampleState) = 0 ∧
    ∃ pollEvs, (∀ e ∈ pollEvs, isPollEvent e = true) ∧
      (Event.beginRecreate :: Event.pollFramebufferSize 100 100 ::
        Event.deviceWaitIdle :: (cleanupSwapChain ++ rebuildSwapChain) :
        List Event) =
      Event.beginRecreate :: pollEvs ++ Event.deviceWaitIdle ::
        (cleanupSwapChain ++ rebuildSwapChain) :=
  recreateSwapChain_idle_before_teardown sampleState [(100, 100)] none
    { sampleState with swapchainGeneration := 1 }
    (Event.beginRecreate :: Event.pollFramebufferSize 100 100 ::
      Event.deviceWaitIdle :: (cleanupSwapChain ++ rebuildSwapChain))
    (by decide)

/-- C8: the size-polling loop of `recreateSwapChain` only ever hands a size
with positive width and height to the rest of recreation; while every
reported size is degenerate, recreation cannot proceed (it stays in the
loop); and for the reported size sequence [(0,0), (0,5), (100,100)],
recreation polls all three and proceeds exactly upon observing (100,100). -/
theorem recreation_degenerate_size_guard :
    (∀ (sizes : List (Nat × Nat)) (sz : Nat × Nat) (evs : List Event),
      getFramebufferSizeLoop sizes = some (sz, evs) → 0 < sz.1 ∧ 0 < sz.2) ∧
    (getFramebufferSizeLoop [(0, 0), (0, 5), (100, 100)] =
      some ((100, 100),
        [Event.pollFramebufferSize 0 0, Event.pollFramebufferSize 0 5,
         Event.pollFramebufferSize 100 100])) ∧
    (∀ (s : AppState) (c : Bool), recreateSwapChain s [(0, 0), (0, 5)] c = none) ∧
    (recreateSwapChain sampleState [(0, 0), (0, 5), (100, 100)] true =
      some (none, { sampleState with swapchainGeneration := 1 },
        Event.beginRecreate :: Event.pollFramebufferSize 0 0 ::
        Event.pollFramebufferSize 0 5 :: Event.pollFramebufferSize 100 100 ::
        Event.deviceWaitIdle :: (cleanupSwapChain ++ rebuildSwapChain))) := by
  refine ⟨?_, by decide, ?_, by decide⟩
  · intro sizes sz evs h
    exact ⟨(getFramebufferSizeLoop_spec sizes sz evs h).1,
           (getFramebufferSizeLoop_spec sizes sz evs h).2.1⟩
  · intro s c
    rfl

/-- Witness for C8: the size the loop accepts in the scenario is positive. -/
theorem recreation_degenerate_size_guard_witness :
    (0 : Nat) < 100 ∧ (0 : Nat) < 100 :=
  recreation_degenerate_size_guard.1 [(100, 100)] (100, 100)
    [Event.pollFramebufferSize 100 100] (by decide)

/-- The state after ten successful frames from `sampleState`: both slots
have work in flight, frame index back at 0. -/
def finalState10 : AppState :=
  { currentFrame := 0,
    slots := [{ fenceSignaled := false, pending := true },
              { fenceSignaled := false, pending := true }],
    windowResized := false, graphicsFamily := 0, presentFamily := 0,
    swapchainGeneration := 0 }

/-- C6: the advance step sets the frame index to
`(current + 1) % MAX_FRAMES_IN_FLIGHT` on every non-skipped iteration, and
with N = 2 slots and an always-succeeding device, ten consecutive
`drawFrame` cycles use the slots in order 0,1,0,1,... and never reuse a
slot whose submitted work is still outstanding (the recorded
reused-while-pending flag is `false` at every cycle). -/
theorem drawFrame_advances_round_robin :
    (∀ (s : AppState) (d : DeviceResponse) (o : Outcome) (s' : AppState)
       (tr : List Event), drawFrame s d = some (o, s', tr) → o = Outcome.ok →
      s'.currentFrame = (s.currentFrame + 1) % MAX_FRAMES_IN_FLIGHT) ∧
    runFrames sampleState (List.replicate 10 allSuccess) =
      some (finalState10,
        [(0, false, Outcome.ok), (1, false, Outcome.ok), (0, false, Outcome.ok),
         (1, false, Outcome.ok), (0, false, Outcome.ok), (1, false, Outcome.ok),
         (0, false, Outcome.ok), (1, false, Outcome.ok), (0, false, Outcome.ok),
         (1, false, Outcome.ok)]) := by
  constructor
  · intro s d o s' tr h ho
    subst ho
    cases hacq : d.acquireResult with
    | errorOutOfDateKHR =>
      obtain ⟨s1, res, rEvs, hw, hr, htr, hcase⟩ :=
        drawFrame_ood_inv s d _ s' tr hacq h
      rcases hcase with ⟨hres, hko⟩ | ⟨m, hm, hko⟩ <;> exact Outcome.noConfusion hko
    | errorOther =>
      obtain ⟨s1, hw, hko, hs', htr⟩ := drawFrame_acquire_other_inv s d _ s' tr hacq h
      exact Outcome.noConfusion hko
    | success =>
      obtain ⟨s1, hw, hrest⟩ := drawFrame_normal_inv s d _ s' tr (Or.inl hacq) h
      have hcf1 : s1.currentFrame = s.currentFrame :=
        (vkWaitForFences_some s s.currentFrame s1 hw).1
      simp only [] at hrest
      rcases hrest with ⟨hfail, hko, hs', htr⟩ | ⟨hokSub, hrest⟩
      · exact Outcome.noConfusion hko
      rcases hrest with ⟨hpres, res, s5, rEvs, hr, htr, hcase⟩ |
        ⟨hnp, hother, hko, hs', htr⟩ | ⟨hnp, hsucc, hko, hs', htr⟩
      · obtain ⟨sz, pollEvs, hl, hslots, hcf, hwr, hgf, hpf, hc⟩ :=
          recreateSwapChain_inv _ _ _ _ _ _ hr
        rcases hcase with ⟨hres, hko, hs'⟩ | ⟨m, hm, hko, hs'⟩
        · rw [hs']
          have h5 : s5.currentFrame = s.currentFrame := hcf.trans hcf1
          simp only []
          rw [h5]
        · exact Outcome.noConfusion hko
      · exact Outcome.noConfusion hko
      · rw [hs']
        simp only []
        rw [armFence_currentFrame, vkResetFences_currentFrame, hcf1]
    | suboptimalKHR =>
      obtain ⟨s1, hw, hrest⟩ := drawFrame_normal_inv s d _ s' tr (Or.inr hacq) h
      have hcf1 : s1.currentFrame = s.currentFrame :=
        (vkWaitForFences_some s s.currentFrame s1 hw).1
      simp only [] at hrest
      rcases hrest with ⟨hfail, hko, hs', htr⟩ | ⟨hokSub, hrest⟩
      · exact Outcome.noConfusion hko
      rcases hrest with ⟨hpres, res, s5, rEvs, hr, htr, hcase⟩ |
        ⟨hnp, hother, hko, hs', htr⟩ | ⟨hnp, hsucc, hko, hs', htr⟩
      · obtain ⟨sz, pollEvs, hl, hslots, hcf, hwr, hgf, hpf, hc⟩ :=
          recreateSwapChain_inv _ _ _ _ _ _ hr
        rcases hcase with ⟨hres, hko, hs'⟩ | ⟨m, hm, hko, hs'⟩
        · rw [hs']
          have h5 : s5.currentFrame = s.currentFrame := hcf.trans hcf1
          simp only []
          rw [h5]
        · exact Outcome.noConfusion hko
      · exact Outcome.noConfusion hko
      · rw [hs']
        simp only []
        rw [armFence_currentFrame, vkResetFences_currentFrame, hcf1]
  · decide

/-- Witness for C6: the advance law at the first concrete frame. -/
theorem drawFrame_advances_round_robin_witness :
    witState1.currentFrame = (sampleState.currentFrame + 1) % MAX_FRAMES_IN_FLIGHT :=
  drawFrame_advances_round_robin.1 sampleState allSuccess Outcome.ok witState1
    witTrace1 (by decide) rfl

/-- C9: at startup `createSyncObjects` creates one image-available
semaphore, one render-finished semaphore and one fence per frame in flight,
every fence created in the signaled state (`VK_FENCE_CREATE_SIGNALED_BIT`),
so the first wait on each slot's fence returns immediately instead of
blocking; any creation failure throws a fatal error. -/
theorem createSyncObjects_spec :
    (createSyncObjects true true =
      Except.ok (MAX_FRAMES_IN_FLIGHT, MAX_FRAMES_IN_FLIGHT, initSlots)) ∧
    (∀ sl ∈ initSlots, sl.fenceSignaled = fenceCreateSignaled ∧
      sl.pending = false) ∧
    (∀ i, i < MAX_FRAMES_IN_FLIGHT →
      vkWaitForFences (mkInitialState 0 0 initSlots) i =
        some (mkInitialState 0 0 initSlots)) ∧
    (∀ semOk fenceOk : Bool, ¬(semOk = true ∧ fenceOk = true) →
      createSyncObjects semOk fenceOk =
        Except.error "failed to create sync objects") := by
  refine ⟨rfl, by decide, by decide, ?_⟩
  intro semOk fenceOk hne
  cases semOk <;> cases fenceOk
  · rfl
  · rfl
  · rfl
  · exact absurd ⟨rfl, rfl⟩ hne

/-- Witness for C9: the very first wait on slot 0's fence returns
immediately. -/
theorem createSyncObjects_spec_witness :
    vkWaitForFences (mkInitialState 0 0 initSlots) 0 =
      some (mkInitialState 0 0 initSlots) :=
  createSyncObjects_spec.2.2.1 0 (by decide)

end VulkanTutorial
